import Mathlib

/-!
Verification of the tegdb test-refactoring scripts.

Shallow embedding of the three Python scripts
  src/identify_platform_specific_tests.py
  src/refactor_platform_specific_tests.py
  src/refactor_tests_for_wasm.py
Strings are modelled as Lean `String`/`List Char`; Python's substring test
(`needle in hay`), `str.strip`, `str.lower`, `str.split('\n')` and
`'\n'.join` are modelled by the executable helpers below.  Brace characters
inside string literals are written with the escapes \x7b and \x7d.
-/

namespace TegdbRefactor

/-! ## Basic string helpers (Python semantics) -/

def lbrace : Char := Char.ofNat 123

def rbrace : Char := Char.ofNat 125

/-- Does `hay` start with `needle`? (List version of Python slicing check.) -/
def startsList : List Char → List Char → Bool
  | [], _ => true
  | _ :: _, [] => false
  | a :: as, b :: bs => a = b && startsList as bs

/-- Python `needle in hay` on character lists. -/
def subList (needle : List Char) : List Char → Bool
  | [] => startsList needle []
  | c :: rest => startsList needle (c :: rest) || subList needle rest

/-- Python `needle in hay` on strings. -/
def containsStr (hay needle : String) : Bool := subList needle.data hay.data

/-- Characters stripped by Python `str.strip()`. -/
def isPySpace (c : Char) : Bool :=
  c = ' ' || c = '\t' || c = '\n' || c = '\r' || c = Char.ofNat 11 || c = Char.ofNat 12

/-- Python `str.strip()`. -/
def pystrip (s : String) : String :=
  String.mk (((s.data.dropWhile isPySpace).reverse.dropWhile isPySpace).reverse)

/-- Python `s.startswith(pre)`. -/
def pystartswith (s pre : String) : Bool := startsList pre.data s.data

/-- Python `str.lower()` (ASCII, which is all the scripts feed it). -/
def asciiLower (c : Char) : Char :=
  if 65 ≤ c.toNat ∧ c.toNat ≤ 90 then Char.ofNat (c.toNat + 32) else c

/-- Python `str.lower()` on strings. -/
def pylower (s : String) : String := String.mk (s.data.map asciiLower)

def splitNLAux : List Char → List Char → List String
  | [], acc => [String.mk acc.reverse]
  | c :: rest, acc =>
    if c = '\n' then String.mk acc.reverse :: splitNLAux rest []
    else splitNLAux rest (c :: acc)

/-- Python `s.split('\n')`. -/
def splitNL (s : String) : List String := splitNLAux s.data []

/-- Python `'\n'.join(ls)`. -/
def joinNL (ls : List String) : String := String.intercalate "\n" ls

/-! ## Classifier (identify_platform_specific_tests.py, scan_test_files, lines 26-41) -/

inductive Category where
  | platformSpecific
  | backendAgnostic
  | mixed
  deriving DecidableEq, Repr

/-- Signal: direct low-level handle construction (line 26). -/
def has_storage_engine (content : String) : Bool :=
  containsStr content "StorageEngine::new"

/-- Signal: direct filesystem manipulation (line 27). -/
def has_file_ops (content : String) : Bool :=
  containsStr content "fs::remove_file" || containsStr content "tempfile::" ||
    containsStr content "PathBuf::from"

/-- Signal: use of the cross-backend test harness (line 28). -/
def has_run_with_both_backends (content : String) : Bool :=
  containsStr content "run_with_both_backends"

/-- Signal: use of the high-level open entry point (line 29). -/
def has_database_api (content : String) : Bool :=
  containsStr content "Database::open"

/-- Per-file categorization, lines 32-41 of identify_platform_specific_tests.py. -/
def categorize (content : String) : Category :=
  if has_storage_engine content || has_file_ops content then
    if has_run_with_both_backends content || has_database_api content then
      Category.mixed
    else
      Category.platformSpecific
  else
    Category.backendAgnostic

/-! ## Claims about the Classifier -/

/-- C1: for every input text the classifier computes the four boolean signals and
assigns the category by the decision table: a low-level-handle or direct-fs signal
together with a cross-backend or high-level-open signal gives `mixed`; a
low-level-handle or direct-fs signal alone gives `platform_specific`; otherwise
the file is `backend_agnostic`, in particular when none of the four signals holds. -/
theorem classifier_decision_table (content : String) :
    (categorize content = Category.mixed ↔
      ((has_storage_engine content || has_file_ops content) = true ∧
        (has_run_with_both_backends content || has_database_api content) = true)) ∧
    (categorize content = Category.platformSpecific ↔
      ((has_storage_engine content || has_file_ops content) = true ∧
        (has_run_with_both_backends content || has_database_api content) = false)) ∧
    (categorize content = Category.backendAgnostic ↔
      (has_storage_engine content || has_file_ops content) = false) ∧
    ((has_storage_engine content = false ∧ has_file_ops content = false ∧
        has_run_with_both_backends content = false ∧ has_database_api content = false) →
      categorize content = Category.backendAgnostic) := by
  cases h1 : has_storage_engine content <;>
    cases h2 : has_file_ops content <;>
      cases h3 : has_run_with_both_backends content <;>
        cases h4 : has_database_api content <;>
          simp [categorize, h1, h2, h3, h4]

/-- Witness for C1: the empty text has none of the four signals and is
classified `backend_agnostic`. -/
theorem classifier_decision_table_witness :
    (has_storage_engine "" = false ∧ has_file_ops "" = false ∧
      has_run_with_both_backends "" = false ∧ has_database_api "" = false) ∧
    categorize "" = Category.backendAgnostic :=
  ⟨by decide, (classifier_decision_table "").2.2.2 (by decide)⟩

/-! ## Function Locator

The brace-counting scan of refactor_tests_for_wasm.py lines 156-167:
starting at the opening brace, +1 per opening brace, -1 per closing brace
(raw characters, no lexical exclusion), stopping right after the character
where the counter returns to zero.  The returned number is the offset one
past the stopping brace, relative to the scan start (Python's
`brace_end - brace_start`). -/

def braceScanAux : List Char → Int → Option Nat
  | [], _ => none
  | c :: rest, count =>
    if c = lbrace then (braceScanAux rest (count + 1)).map (fun n => n + 1)
    else if c = rbrace then
      if count - 1 = 0 then some 1
      else (braceScanAux rest (count - 1)).map (fun n => n + 1)
    else (braceScanAux rest count).map (fun n => n + 1)

/-- The scan of lines 156-167 started with counter 0 at the opening brace. -/
def bodyEnd (cs : List Char) : Option Nat := braceScanAux cs 0

/-- Contribution of one character to the delimiter depth. -/
def braceDelta (c : Char) : Int :=
  if c = lbrace then 1 else if c = rbrace then -1 else 0

/-- Net delimiter depth of a character list. -/
def depth (cs : List Char) : Int := (cs.map braceDelta).sum

@[simp] lemma depth_nil : depth [] = 0 := rfl

@[simp] lemma depth_cons (c : Char) (l : List Char) :
    depth (c :: l) = braceDelta c + depth l := by
  simp [depth]

@[simp] lemma braceDelta_lb : braceDelta lbrace = 1 := by simp [braceDelta]

@[simp] lemma braceDelta_rb : braceDelta rbrace = -1 := by
  have : lbrace ≠ rbrace := by decide
  simp [braceDelta, this.symm]

lemma braceDelta_other {c : Char} (h1 : c ≠ lbrace) (h2 : c ≠ rbrace) :
    braceDelta c = 0 := by
  simp [braceDelta, h1, h2]

/-- Soundness invariant of the raw brace scan: started with a positive counter
`d`, a successful scan consumes `k` characters, the last consumed character is a
closing brace, the counter (that is, `d` plus the net depth of the consumed
prefix) ends at zero there and is strictly positive at every earlier point. -/
lemma braceScanAux_sound :
    ∀ (cs : List Char) (d : Int) (k : Nat), 0 < d → braceScanAux cs d = some k →
      1 ≤ k ∧ k ≤ cs.length ∧ cs[k - 1]? = some rbrace ∧
        d + depth (cs.take k) = 0 ∧ ∀ m, m < k → 0 < d + depth (cs.take m) := by
  intro cs
  induction cs with
  | nil => intro d k hd h; simp [braceScanAux] at h
  | cons c rest ih =>
    intro d k hd h
    by_cases hc : c = lbrace
    · subst hc
      simp only [braceScanAux, if_pos rfl] at h
      obtain ⟨k', hk', rfl⟩ := Option.map_eq_some'.mp h
      obtain ⟨h1, h2, h3, h4, h5⟩ := ih (d + 1) k' (by omega) hk'
      obtain ⟨t, rfl⟩ : ∃ t, k' = t + 1 := ⟨k' - 1, by omega⟩
      refine ⟨by omega, by simp; omega, ?_, ?_, ?_⟩
      · simpa using h3
      · simp only [List.take_succ_cons, depth_cons, braceDelta_lb]
        omega
      · intro m hm
        match m with
        | 0 => simpa using hd
        | m' + 1 =>
          have := h5 m' (by omega)
          simp only [List.take_succ_cons, depth_cons, braceDelta_lb]
          omega
    · by_cases hc2 : c = rbrace
      · subst hc2
        have hne : ¬(rbrace = lbrace) := by decide
        simp only [braceScanAux, if_neg hne, if_pos rfl] at h
        by_cases hd1 : d - 1 = 0
        · rw [if_pos hd1] at h
          obtain rfl : (1 : Nat) = k := by simpa using h
          refine ⟨le_refl 1, by simp, by simp, ?_, ?_⟩
          · simp only [List.take_succ_cons, List.take_zero, depth_cons,
              braceDelta_rb, depth_nil]
            omega
          · intro m hm
            obtain rfl : m = 0 := by omega
            simpa using hd
        · rw [if_neg hd1] at h
          obtain ⟨k', hk', rfl⟩ := Option.map_eq_some'.mp h
          obtain ⟨h1, h2, h3, h4, h5⟩ := ih (d - 1) k' (by omega) hk'
          obtain ⟨t, rfl⟩ : ∃ t, k' = t + 1 := ⟨k' - 1, by omega⟩
          refine ⟨by omega, by simp; omega, ?_, ?_, ?_⟩
          · simpa using h3
          · simp only [List.take_succ_cons, depth_cons, braceDelta_rb]
            omega
          · intro m hm
            match m with
            | 0 => simpa using hd
            | m' + 1 =>
              have := h5 m' (by omega)
              simp only [List.take_succ_cons, depth_cons, braceDelta_rb]
              omega
      · simp only [braceScanAux, if_neg hc, if_neg hc2] at h
        obtain ⟨k', hk', rfl⟩ := Option.map_eq_some'.mp h
        obtain ⟨h1, h2, h3, h4, h5⟩ := ih d k' hd hk'
        obtain ⟨t, rfl⟩ : ∃ t, k' = t + 1 := ⟨k' - 1, by omega⟩
        have hdelta : braceDelta c = 0 := braceDelta_other hc hc2
        refine ⟨by omega, by simp; omega, ?_, ?_, ?_⟩
        · simpa using h3
        · simp only [List.take_succ_cons, depth_cons, hdelta]
          omega
        · intro m hm
          match m with
          | 0 => simpa using hd
          | m' + 1 =>
            have := h5 m' (by omega)
            simp only [List.take_succ_cons, depth_cons, hdelta]
            omega

/-- C2 (amended): the brace-counting locator of refactor_tests_for_wasm.py,
started at the body's opening brace, stops exactly at the matching closing
brace: at the returned offset the net depth first returns to zero (it is
strictly positive at every earlier offset past the opening brace), so no
earlier inner closing brace ends the span.  The regex-captured span of
refactor_platform_specific_tests.py, by contrast, ends at the first closing
brace (see the counterexample). -/
theorem braceScan_ends_at_matching_close (cs : List Char) (k : Nat)
    (h : bodyEnd (lbrace :: cs) = some k) :
    2 ≤ k ∧ k ≤ cs.length + 1 ∧ (lbrace :: cs)[k - 1]? = some rbrace ∧
      depth ((lbrace :: cs).take k) = 0 ∧
      ∀ m, 0 < m → m < k → 0 < depth ((lbrace :: cs).take m) := by
  have h' : (braceScanAux cs 1).map (fun n => n + 1) = some k := by
    simpa [bodyEnd, braceScanAux] using h
  obtain ⟨k', hk', rfl⟩ := Option.map_eq_some'.mp h'
  obtain ⟨h1, h2, h3, h4, h5⟩ := braceScanAux_sound cs 1 k' (by omega) hk'
  obtain ⟨t, rfl⟩ : ∃ t, k' = t + 1 := ⟨k' - 1, by omega⟩
  refine ⟨by omega, by omega, ?_, ?_, ?_⟩
  · simpa using h3
  · simp only [List.take_succ_cons, depth_cons, braceDelta_lb]
    omega
  · intro m hm0 hm
    match m with
    | m' + 1 =>
      have := h5 m' (by omega)
      simp only [List.take_succ_cons, depth_cons, braceDelta_lb]
      omega

/-- Witness for C2: on the nested body `{a{b}c}` the scan returns offset 7,
the matching closing brace, and the depth is still positive at offset 5,
right after the inner closing brace. -/
theorem braceScan_ends_at_matching_close_witness :
    bodyEnd (lbrace :: "a\x7bb\x7dc\x7d".data) = some 7 ∧
    depth ((lbrace :: "a\x7bb\x7dc\x7d".data).take 7) = 0 ∧
    0 < depth ((lbrace :: "a\x7bb\x7dc\x7d".data).take 5) :=
  ⟨by decide,
   (braceScan_ends_at_matching_close "a\x7bb\x7dc\x7d".data 7 (by decide)).2.2.2.1,
   (braceScan_ends_at_matching_close "a\x7bb\x7dc\x7d".data 7 (by decide)).2.2.2.2 5
     (by decide) (by decide)⟩

/-- Body span produced by the regular expression of
refactor_platform_specific_tests.py lines 59 and 192 (tail of the test
pattern): after the opening brace, one or more non-closing-brace characters,
then the first closing brace ends the match. -/
def regexBodyEnd (cs : List Char) : Option Nat :=
  match cs with
  | [] => none
  | c :: rest =>
    if c = lbrace then
      match rest.findIdx? (fun d => d == rbrace) with
      | some p => if 0 < p then some (p + 2) else none
      | none => none
    else none

/-- Counterexample for C2 as stated: on the nested body `{a{b}c}` the
regex-based locator of refactor_platform_specific_tests.py ends the body
span at offset 5, an inner closing brace where the depth has not returned
to zero, truncating before the matching closing brace at offset 7 found by
the brace-counting scan. -/
theorem regex_locator_truncates_nested :
    regexBodyEnd (lbrace :: "a\x7bb\x7dc\x7d".data) = some 5 ∧
    bodyEnd (lbrace :: "a\x7bb\x7dc\x7d".data) = some 7 ∧
    depth ((lbrace :: "a\x7bb\x7dc\x7d".data).take 5) ≠ 0 := by
  decide

/-- Spec-side depth scan, following the spec's words (section 4.2): identical
to the raw scan except that a double quote toggles literal mode and characters
inside a literal never change the depth counter.  Used only to contrast with
`bodyEnd`, which is the code's scan. -/
def braceScanLitAux : List Char → Int → Bool → Option Nat
  | [], _, _ => none
  | c :: rest, count, inLit =>
    if c = '"' then (braceScanLitAux rest count (!inLit)).map (fun n => n + 1)
    else if inLit then (braceScanLitAux rest count inLit).map (fun n => n + 1)
    else if c = lbrace then (braceScanLitAux rest (count + 1) inLit).map (fun n => n + 1)
    else if c = rbrace then
      if count - 1 = 0 then some 1
      else (braceScanLitAux rest (count - 1) inLit).map (fun n => n + 1)
    else (braceScanLitAux rest count inLit).map (fun n => n + 1)

/-- Literal-aware scan started outside a literal with counter 0. -/
def bodyEndSpec (cs : List Char) : Option Nat := braceScanLitAux cs 0 false

/-- Counterexample for C3: on the body `{"}"}` whose first closing brace sits
inside a string literal, the code's scan stops at offset 3 (the brace inside
the literal), while the literal-aware scan demanded by the spec stops at
offset 5.  The code's depth counter therefore does count braces inside string
literals. -/
theorem braceScan_counts_braces_in_literals :
    bodyEnd "\x7b\"\x7d\"\x7d".data = some 3 ∧
    bodyEndSpec "\x7b\"\x7d\"\x7d".data = some 5 ∧
    bodyEnd "\x7b\"\x7d\"\x7d".data ≠ bodyEndSpec "\x7b\"\x7d\"\x7d".data := by
  decide

/-- Classification of a character as opening brace, closing brace, or other:
all the raw scan can see of it. -/
def braceClass (c : Char) : Nat :=
  if c = lbrace then 0 else if c = rbrace then 1 else 2

lemma rb_ne_lb : rbrace ≠ lbrace := by decide

lemma braceClass_eq_zero {c : Char} (h : braceClass c = 0) : c = lbrace := by
  by_cases h1 : c = lbrace
  · exact h1
  · exfalso
    by_cases h2 : c = rbrace
    · subst h2; simp [braceClass, rb_ne_lb] at h
    · simp [braceClass, h1, h2] at h

lemma braceClass_eq_one {c : Char} (h : braceClass c = 1) : c = rbrace := by
  by_cases h1 : c = lbrace
  · subst h1; simp [braceClass] at h
  · by_cases h2 : c = rbrace
    · exact h2
    · exfalso; simp [braceClass, h1, h2] at h

lemma braceClass_eq_two {c : Char} (h : braceClass c = 2) :
    c ≠ lbrace ∧ c ≠ rbrace := by
  by_cases h1 : c = lbrace
  · exfalso; subst h1; simp [braceClass] at h
  · by_cases h2 : c = rbrace
    · exfalso; subst h2; simp [braceClass, rb_ne_lb] at h
    · exact ⟨h1, h2⟩

lemma braceScanAux_skeleton :
    ∀ (cs ds : List Char) (d : Int),
      cs.map braceClass = ds.map braceClass → braceScanAux cs d = braceScanAux ds d := by
  intro cs
  induction cs with
  | nil =>
    intro ds d h
    cases ds with
    | nil => rfl
    | cons e es => simp at h
  | cons c cs' ih =>
    intro ds d h
    cases ds with
    | nil => simp at h
    | cons e es =>
      simp only [List.map_cons, List.cons.injEq] at h
      obtain ⟨hce, hrest⟩ := h
      by_cases hc : c = lbrace
      · have he : e = lbrace := by
          apply braceClass_eq_zero
          rw [← hce, hc]
          decide
        subst hc; subst he
        simp [braceScanAux, ih es (d + 1) hrest]
      · by_cases hc2 : c = rbrace
        · have he : e = rbrace := by
            apply braceClass_eq_one
            rw [← hce, hc2]
            decide
          subst hc2; subst he
          simp [braceScanAux, rb_ne_lb, ih es (d - 1) hrest]
        · have he : e ≠ lbrace ∧ e ≠ rbrace := by
            apply braceClass_eq_two
            rw [← hce]
            simp [braceClass, hc, hc2]
          simp [braceScanAux, hc, hc2, he.1, he.2, ih es d hrest]

/-- C3 (amended): the depth scan that determines the body's end offset treats
every character only through its brace class: any two texts with the same
sequence of opening/closing/other characters produce the same scan result.
In particular braces inside string or comment literals change the depth
counter exactly like braces outside them; the scan performs no lexical
exclusion. -/
theorem braceScan_depends_only_on_skeleton (cs ds : List Char)
    (h : cs.map braceClass = ds.map braceClass) : bodyEnd cs = bodyEnd ds :=
  braceScanAux_skeleton cs ds 0 h

/-- Witness for C3: the literal-containing body `{"}"}` and the literal-free
body `{a}b}` have the same brace skeleton, and the scan treats them
identically, stopping at offset 3 in both. -/
theorem braceScan_depends_only_on_skeleton_witness :
    "\x7b\"\x7d\"\x7d".data.map braceClass = "\x7ba\x7db\x7d".data.map braceClass ∧
    bodyEnd "\x7b\"\x7d\"\x7d".data = bodyEnd "\x7ba\x7db\x7d".data ∧
    bodyEnd "\x7ba\x7db\x7d".data = some 3 :=
  ⟨by decide,
   braceScan_depends_only_on_skeleton "\x7b\"\x7d\"\x7d".data "\x7ba\x7db\x7d".data
     (by decide),
   by decide⟩

/-! ## Rule Engine (refactor_platform_specific_tests.py)

convert_storage_engine_to_database, lines 90-167: the body is split into
lines; each line is matched against the rule chain below, in order, and
contributes zero, one or two output lines; the results are joined with
newlines. -/

/-- The skip_lines list, lines 96-106. -/
def skipLines : List String :=
  ["let path = temp_db_path",
   "fs::remove_file",
   "if path.exists()",
   "let mut engine = StorageEngine::new",
   "let engine = StorageEngine::new",
   "let engine2 = StorageEngine::new",
   "let engine2_result = StorageEngine::new",
   "let _engine3 = StorageEngine::new",
   "let engine1 = StorageEngine::new"]

/-- One iteration of the loop of lines 108-165: the output lines contributed
by a single body line. -/
def convertLine (line : String) : List String :=
  let stripped := pystrip line
  if skipLines.any (fun s => containsStr stripped s) then []
  else if containsStr stripped "engine.set(" then []
  else if containsStr stripped "engine.get(" then []
  else if containsStr stripped "engine.delete(" then []
  else if containsStr stripped "engine.begin_transaction()" then
    ["        let mut db = Database::open(db_path)?;",
     "        let mut tx = db.begin_transaction()?;"]
  else if containsStr stripped "tx.set(" then
    ["        // TODO: Convert tx.set to SQL operation"]
  else if containsStr stripped "tx.get(" then
    ["        // TODO: Convert tx.get to SQL query"]
  else if containsStr stripped "tx.delete(" then
    ["        // TODO: Convert tx.delete to SQL DELETE"]
  else if containsStr stripped "tx.commit()" then
    ["        tx.commit()?;"]
  else if containsStr stripped "tx.rollback()" then
    ["        tx.rollback()?;"]
  else if containsStr stripped "assert_eq!" && containsStr stripped "engine.get(" then
    ["        // TODO: Convert engine.get assertion to database query"]
  else [line]

/-- convert_storage_engine_to_database (lines 90-167).  The `test_name`
parameter is accepted and unused, exactly as in the source. -/
def convert_storage_engine_to_database (test_body test_name : String) : String :=
  joinNL (((splitNL test_body).map convertLine).flatten)

/-- The wrapping template shared by refactor_transaction_tests (lines 69-75)
and replace_test in refactor_commit_marker_tests /
refactor_read_only_transaction_test (lines 198-204 and 247-253): the body is
wrapped in a run_with_both_backends call keyed by the function's own name,
binding the single parameter db_path. -/
def wrapTest (test_name body : String) : String :=
  "#[test]\nfn " ++ test_name ++ "() -> Result<()> \x7b\n    run_with_both_backends(\"" ++
    test_name ++ "\", |db_path| \x7b\n" ++ body ++ "\n        Ok(())\n    \x7d)\n\x7d"

/-- Per-function rewrite of refactor_transaction_tests (lines 57-77): convert
the matched body, then wrap it. -/
def refactorTransactionFunction (test_name test_body : String) : String :=
  wrapTest test_name (convert_storage_engine_to_database test_body test_name)

/-- Canonical text matched by the test-function regular expression
(lines 59, 192 and 241): attribute, header, opening brace, the captured body
(which by the pattern contains no closing brace), closing brace. -/
def matchedText (test_name body : String) : String :=
  "#[test]\nfn " ++ test_name ++ "() -> Result<()> \x7b" ++ body ++ "\x7d"

/-- Counterexample for C5 as stated: a body line performing a low-level
engine.set call contributes no output line at all, so the whole single-line
body converts to the empty string with no unresolved-placeholder comment:
the line is silently dropped. -/
theorem engine_set_line_silently_dropped :
    convert_storage_engine_to_database "engine.set(b\"key\", b\"value\")?;" "test_x" = "" ∧
    containsStr
      (convert_storage_engine_to_database "engine.set(b\"key\", b\"value\")?;" "test_x")
      "TODO" = false := by
  decide

/-- C5 (amended): lines performing low-level transaction-handle get/set/delete
calls (tx.set, tx.get, tx.delete) are each replaced with their explicit TODO
placeholder comment, but lines performing low-level storage-engine
get/set/delete calls (engine.set, engine.get, engine.delete) are silently
dropped: they contribute no output line and no placeholder.  Each of the six
lines is assumed to reach its own branch of the rule chain, that is, not to
match any earlier rule. -/
theorem convert_line_rules (eSet eGet eDel tSet tGet tDel : String)
    (h1 : skipLines.any (fun s => containsStr (pystrip eSet) s) = false)
    (h2 : containsStr (pystrip eSet) "engine.set(" = true)
    (h3 : skipLines.any (fun s => containsStr (pystrip eGet) s) = false)
    (h4 : containsStr (pystrip eGet) "engine.set(" = false)
    (h5 : containsStr (pystrip eGet) "engine.get(" = true)
    (h6 : skipLines.any (fun s => containsStr (pystrip eDel) s) = false)
    (h7 : containsStr (pystrip eDel) "engine.set(" = false)
    (h8 : containsStr (pystrip eDel) "engine.get(" = false)
    (h9 : containsStr (pystrip eDel) "engine.delete(" = true)
    (h10 : skipLines.any (fun s => containsStr (pystrip tSet) s) = false)
    (h11 : containsStr (pystrip tSet) "engine.set(" = false)
    (h12 : containsStr (pystrip tSet) "engine.get(" = false)
    (h13 : containsStr (pystrip tSet) "engine.delete(" = false)
    (h14 : containsStr (pystrip tSet) "engine.begin_transaction()" = false)
    (h15 : containsStr (pystrip tSet) "tx.set(" = true)
    (h16 : skipLines.any (fun s => containsStr (pystrip tGet) s) = false)
    (h17 : containsStr (pystrip tGet) "engine.set(" = false)
    (h18 : containsStr (pystrip tGet) "engine.get(" = false)
    (h19 : containsStr (pystrip tGet) "engine.delete(" = false)
    (h20 : containsStr (pystrip tGet) "engine.begin_transaction()" = false)
    (h21 : containsStr (pystrip tGet) "tx.set(" = false)
    (h22 : containsStr (pystrip tGet) "tx.get(" = true)
    (h23 : skipLines.any (fun s => containsStr (pystrip tDel) s) = false)
    (h24 : containsStr (pystrip tDel) "engine.set(" = false)
    (h25 : containsStr (pystrip tDel) "engine.get(" = false)
    (h26 : containsStr (pystrip tDel) "engine.delete(" = false)
    (h27 : containsStr (pystrip tDel) "engine.begin_transaction()" = false)
    (h28 : containsStr (pystrip tDel) "tx.set(" = false)
    (h29 : containsStr (pystrip tDel) "tx.get(" = false)
    (h30 : containsStr (pystrip tDel) "tx.delete(" = true) :
    convertLine eSet = [] ∧ convertLine eGet = [] ∧ convertLine eDel = [] ∧
    convertLine tSet = ["        // TODO: Convert tx.set to SQL operation"] ∧
    convertLine tGet = ["        // TODO: Convert tx.get to SQL query"] ∧
    convertLine tDel = ["        // TODO: Convert tx.delete to SQL DELETE"] := by
  refine ⟨?_, ?_, ?_, ?_, ?_, ?_⟩
  · simp [convertLine, h1, h2]
  · simp [convertLine, h3, h4, h5]
  · simp [convertLine, h6, h7, h8, h9]
  · simp [convertLine, h10, h11, h12, h13, h14, h15]
  · simp [convertLine, h16, h17, h18, h19, h20, h21, h22]
  · simp [convertLine, h23, h24, h25, h26, h27, h28, h29, h30]

/-- Witness for C5 (amended): concrete engine.set, engine.get and
engine.delete lines are dropped, and concrete tx.set, tx.get and tx.delete
lines each become their TODO placeholder comment. -/
theorem convert_line_rules_witness :
    containsStr (pystrip "tx.delete(b\"k\")?;") "tx.delete(" = true ∧
    convertLine "engine.set(b\"k\", b\"v\")?;" = [] ∧
    convertLine "engine.get(b\"k\")?;" = [] ∧
    convertLine "engine.delete(b\"k\")?;" = [] ∧
    convertLine "tx.set(b\"k\", b\"v\")?;" =
      ["        // TODO: Convert tx.set to SQL operation"] ∧
    convertLine "tx.get(b\"k\")?;" =
      ["        // TODO: Convert tx.get to SQL query"] ∧
    convertLine "tx.delete(b\"k\")?;" =
      ["        // TODO: Convert tx.delete to SQL DELETE"] := by
  have h := convert_line_rules "engine.set(b\"k\", b\"v\")?;" "engine.get(b\"k\")?;"
    "engine.delete(b\"k\")?;" "tx.set(b\"k\", b\"v\")?;" "tx.get(b\"k\")?;"
    "tx.delete(b\"k\")?;"
    (by decide) (by decide) (by decide) (by decide) (by decide) (by decide)
    (by decide) (by decide) (by decide) (by decide) (by decide) (by decide)
    (by decide) (by decide) (by decide) (by decide) (by decide) (by decide)
    (by decide) (by decide) (by decide) (by decide) (by decide) (by decide)
    (by decide) (by decide) (by decide) (by decide) (by decide) (by decide)
  exact ⟨by decide, h.1, h.2.1, h.2.2.1, h.2.2.2.1, h.2.2.2.2.1, h.2.2.2.2.2⟩

/-- Scenario A body: a low-level handle construction, one set, one get, and a
commit call (the text captured between the function's braces). -/
def scenarioBody : String :=
  "\n    let mut engine = StorageEngine::new(path.clone())?;\n    engine.set(b\"key\", b\"value\")?;\n    let value = engine.get(b\"key\");\n    tx.commit()?;\n"

/-- C9: for every function name, transforming a test whose body contains only
a low-level handle construction, one set, one get, and a commit call wraps the
converted body in a run_with_both_backends call that receives the function's
own name as its key argument and binds the single parameter db_path; the
low-level handle construction line is absent from the converted body, and for
the concrete scenario function the whole output text is free of it. -/
theorem scenarioA_transformed (test_name : String) :
    refactorTransactionFunction test_name scenarioBody =
      "#[test]\nfn " ++ test_name ++ "() -> Result<()> \x7b\n    run_with_both_backends(\"" ++
        test_name ++ "\", |db_path| \x7b\n" ++ "\n        tx.commit()?;\n" ++
        "\n        Ok(())\n    \x7d)\n\x7d" ∧
    convert_storage_engine_to_database scenarioBody test_name = "\n        tx.commit()?;\n" ∧
    containsStr (convert_storage_engine_to_database scenarioBody test_name)
      "StorageEngine::new" = false ∧
    containsStr (refactorTransactionFunction "test_transaction_commit" scenarioBody)
      "StorageEngine::new" = false ∧
    containsStr (refactorTransactionFunction "test_transaction_commit" scenarioBody)
      "run_with_both_backends(\"test_transaction_commit\"" = true ∧
    containsStr (refactorTransactionFunction "test_transaction_commit" scenarioBody)
      "|db_path|" = true := by
  refine ⟨rfl, rfl, rfl, by decide, by decide, by decide⟩

/-- Regex-captured body of a test function that already invokes the
cross-backend harness (the capture stops at the first closing brace, the one
ending the inner closure). -/
def cBodyAlready : String :=
  "\n    run_with_both_backends(\"test_a\", |db_path| \x7b\n        Ok(())\n    "

/-- Counterexample for C4 as stated: the refactor_commit_marker_tests entry
point (lines 192-206) wraps every matched test function unconditionally, with
no already-converted guard: on a function whose body already contains the
cross-backend harness invocation the rewrite output differs from the matched
input text, so the function is not returned byte-identical. -/
theorem commit_marker_rewraps_converted :
    containsStr cBodyAlready "run_with_both_backends(" = true ∧
    wrapTest "test_a" cBodyAlready ≠ matchedText "test_a" cBodyAlready := by
  decide

/-! ## refactor_tests_for_wasm.py: per-function processing and file commit -/

/-- PLATFORM_SPECIFIC_TESTS, lines 16-25. -/
def platformSpecificTests : List String :=
  ["test_absolute_path_requirement",
   "temp_db_path",
   "remove_file_if_file_backend",
   "create_test_db",
   "setup_test_table",
   "measure_sql_execution",
   "measure_transaction_sql_execution",
   "run_comprehensive_performance_suite"]

/-- Line 51: the already-converted check on the regex-captured body. -/
def alreadyUsesRwb (body : String) : Bool :=
  containsStr body "run_with_both_backends("

/-- Lines 54-56: keyword list of the simple-test check (the duplicate entry is
in the source). -/
def simpleKeywords : List String :=
  ["database::open", "db.execute", "db.query", "database::open"]

/-- Lines 54-56: a test is simple when no database keyword occurs in the
lowercased body. -/
def isSimpleTest (body : String) : Bool :=
  !(simpleKeywords.any (fun k => containsStr (pylower body) k))

/-- refactor_test_function, lines 66-104: skip already-converted and simple
tests, keep the non-blank non-comment lines of the body, and wrap them in the
cross-backend harness keyed by the function's own name. -/
def refactorTestFunctionOpt (test_name body : String) : Option String :=
  if alreadyUsesRwb body then none
  else if isSimpleTest body then none
  else
    let test_lines :=
      (splitNL body).filter
        (fun l => !((pystrip l).data == [] || pystartswith (pystrip l) "//"))
    if test_lines.isEmpty then none
    else
      some ("    run_with_both_backends(\"" ++ test_name ++ "\", |db_path| \x7b\n" ++
        joinNL test_lines ++ "\n        Ok(())\n    \x7d)")

/-- One test-function match found by the regular expression of line 118:
the function name, the regex-captured body (which stops at the first closing
brace), and the match's start offset in the file. -/
structure TestMatch where
  name : String
  body : String
  start : Nat

/-- Python `content.find(char, start)` for the opening brace, line 155. -/
def findBraceFrom (cs : List Char) (start : Nat) : Option Nat :=
  match (cs.drop start).findIdx? (fun c => c == lbrace) with
  | some j => some (start + j)
  | none => none

/-- Lines 156-174: scan for the matching closing brace starting at the opening
brace; when the scan reaches end of file with the counter still positive,
`brace_end` keeps its initialisation `brace_start`; then splice
`content[:brace_start+1] + newline + refactored + newline + content[brace_end:]`. -/
def spliceRefactored (content : List Char) (braceStart : Nat) (refactored : List Char) :
    List Char :=
  let braceEnd :=
    match bodyEnd (content.drop braceStart) with
    | some k => braceStart + k
    | none => braceStart
  content.take (braceStart + 1) ++ '\n' :: (refactored ++ '\n' :: content.drop braceEnd)

/-- One iteration of the per-match loop of refactor_test_file, lines 129-177,
acting on the current (content, modified) pair. -/
def stepMatch (acc : List Char × Bool) (m : TestMatch) : List Char × Bool :=
  if platformSpecificTests.contains m.name then acc
  else if alreadyUsesRwb m.body then acc
  else if isSimpleTest m.body then acc
  else
    match refactorTestFunctionOpt m.name m.body with
    | none => acc
    | some rb =>
      match findBraceFrom acc.1 m.start with
      | none => acc
      | some bs => (spliceRefactored acc.1 bs rb.data, true)

/-- The whole per-match loop (the source iterates the matches in reverse
order; the list passed here is the iteration order). -/
def processMatches (content : List Char) (ms : List TestMatch) : List Char × Bool :=
  ms.foldl stepMatch (content, false)

/-- A match takes one of the three skip branches of lines 132-145. -/
def skipMatch (m : TestMatch) : Bool :=
  platformSpecificTests.contains m.name || alreadyUsesRwb m.body || isSimpleTest m.body

/-! ## Safety Manager: backup-then-write (lines 199-207 of
refactor_tests_for_wasm.py, lines 79-85 of refactor_platform_specific_tests.py)

The filesystem is a map from paths to optional byte contents. -/

/-- `shutil.copy2(src, dst)`: dst receives src's current content. -/
def copyStep (fs : String → Option String) (src dst : String) :
    String → Option String :=
  fun p => if p = dst then fs src else fs p

/-- `open(path, 'w').write(text)`. -/
def writeStep (fs : String → Option String) (path text : String) :
    String → Option String :=
  fun p => if p = path then some text else fs p

/-- The commit sequence of both scripts: first copy the file to
`path + ".backup"`, then overwrite the file. -/
def commitFile (fs : String → Option String) (path newText : String) :
    String → Option String :=
  writeStep (copyStep fs path (path ++ ".backup")) path newText

/-- refactor_test_file at file level, lines 106-211: read the file, process
the matches, and only when some match modified the content create the backup
and write the new content. -/
def refactorFileModel (fs : String → Option String) (path : String)
    (ms : List TestMatch) : String → Option String :=
  match fs path with
  | none => fs
  | some content =>
    if (processMatches content.data ms).2 then
      commitFile fs path (String.mk (processMatches content.data ms).1)
    else fs

lemma backup_path_ne (path : String) : path ++ ".backup" ≠ path := by
  intro h
  have hlen := congrArg String.length h
  rw [String.length_append] at hlen
  simp at hlen
  exact absurd hlen (by decide)

lemma stepMatch_skip (acc : List Char × Bool) (m : TestMatch)
    (h : skipMatch m = true) : stepMatch acc m = acc := by
  unfold stepMatch
  by_cases h1 : platformSpecificTests.contains m.name = true
  · rw [if_pos h1]
  · rw [if_neg h1]
    by_cases h2 : alreadyUsesRwb m.body = true
    · rw [if_pos h2]
    · rw [if_neg h2]
      by_cases h3 : isSimpleTest m.body = true
      · rw [if_pos h3]
      · exfalso
        have e1 : platformSpecificTests.contains m.name = false :=
          Bool.eq_false_iff.mpr h1
        have e2 : alreadyUsesRwb m.body = false := Bool.eq_false_iff.mpr h2
        have e3 : isSimpleTest m.body = false := Bool.eq_false_iff.mpr h3
        unfold skipMatch at h
        rw [e1, e2, e3] at h
        simp at h

lemma foldl_stepMatch_skip :
    ∀ (ms : List TestMatch) (acc : List Char × Bool),
      (∀ m ∈ ms, skipMatch m = true) → ms.foldl stepMatch acc = acc := by
  intro ms
  induction ms with
  | nil => intro acc _; rfl
  | cons m rest ih =>
    intro acc h
    rw [List.foldl_cons, stepMatch_skip acc m (h m (List.mem_cons_self m rest))]
    exact ih acc (fun x hx => h x (List.mem_cons_of_mem m hx))

/-- C4 (amended): only the refactor_tests_for_wasm entry point guards against
re-transformation, and it does so before any rewrite fires: whenever the
regex-captured body of a matched function already contains the cross-backend
harness invocation, the per-match step leaves the file content and the
modified flag unchanged.  The other entry points wrap every matched function
unconditionally (see the counterexample). -/
theorem wasm_refactor_skips_converted (acc : List Char × Bool) (m : TestMatch)
    (h : alreadyUsesRwb m.body = true) : stepMatch acc m = acc :=
  stepMatch_skip acc m (by simp [skipMatch, h])

/-- Witness for C4 (amended): a concrete already-converted body is left
untouched by the per-match step. -/
theorem wasm_refactor_skips_converted_witness :
    alreadyUsesRwb cBodyAlready = true ∧
    stepMatch ("x".data, false) ⟨"test_a", cBodyAlready, 0⟩ = ("x".data, false) :=
  ⟨by decide,
   wasm_refactor_skips_converted ("x".data, false) ⟨"test_a", cBodyAlready, 0⟩
     (by decide)⟩

/-- C6: for every filesystem, path and new content, the commit sequence leaves
at the backup location exactly the path's pre-commit content (the copy is made
before the write, so the backup never sees the new text), and the path itself
receives the new content. -/
theorem commit_backup_fidelity (fs : String → Option String) (path text : String) :
    commitFile fs path text (path ++ ".backup") = fs path ∧
    commitFile fs path text path = some text := by
  constructor
  · simp [commitFile, writeStep, copyStep, backup_path_ne path]
  · simp [commitFile, writeStep]

/-- A filesystem on which a backup from a previous run already exists. -/
def fsBackupExists : String → Option String :=
  fun p =>
    if p = "t.rs" then some "orig"
    else if p = "t.rs.backup" then some "old" else none

/-- Counterexample for C7 as stated: with a pre-existing backup file, commit
does not fail fast: it writes the path anyway and silently overwrites the old
backup content with the current pre-commit content. -/
theorem existing_backup_overwritten :
    fsBackupExists "t.rs.backup" = some "old" ∧
    commitFile fsBackupExists "t.rs" "new" "t.rs.backup" = some "orig" ∧
    commitFile fsBackupExists "t.rs" "new" "t.rs" = some "new" := by
  decide

/-- C7 (amended): there is no BackupAlreadyPresent check: even when a backup
for the path already exists, commit proceeds, replacing the backup with the
path's current pre-commit content and writing the new text to the path. -/
theorem commit_overwrites_existing_backup (fs : String → Option String)
    (path text old : String) (h : fs (path ++ ".backup") = some old) :
    commitFile fs path text (path ++ ".backup") = fs path ∧
    commitFile fs path text path = some text := by
  constructor
  · simp [commitFile, writeStep, copyStep, backup_path_ne path]
  · simp [commitFile, writeStep]

/-- Witness for C7 (amended): on the concrete filesystem with an existing
backup, commit overwrites the backup with the current original and writes the
path. -/
theorem commit_overwrites_existing_backup_witness :
    fsBackupExists ("t.rs" ++ ".backup") = some "old" ∧
    commitFile fsBackupExists "t.rs" "new" ("t.rs" ++ ".backup") = fsBackupExists "t.rs" ∧
    commitFile fsBackupExists "t.rs" "new" "t.rs" = some "new" :=
  ⟨by decide,
   (commit_overwrites_existing_backup fsBackupExists "t.rs" "new" "old" (by decide)).1,
   (commit_overwrites_existing_backup fsBackupExists "t.rs" "new" "old" (by decide)).2⟩

/-- A file whose test function's braces never return to depth zero before end
of file. -/
def unterminatedFile : String := "#[test]\nfn f() -> Result<()> \x7bdb.execute\x7bx\x7d"

/-- C8 evaluated at the failing input: on a function with an unterminated
brace the scan finds no matching closing brace, yet no MalformedStructure
report is made and the function is not excluded: `brace_end` keeps its
initialisation at the opening brace, so the per-match step still edits the
content, inserting the refactored body right after the opening brace while
keeping the entire original tail, and sets the modified flag, so the corrupted
file is committed. -/
theorem unterminated_function_still_edited :
    findBraceFrom unterminatedFile.data 0 = some 29 ∧
    bodyEnd (unterminatedFile.data.drop 29) = none ∧
    (stepMatch (unterminatedFile.data, false) ⟨"f", "db.execute\x7bx", 0⟩).2 = true ∧
    (stepMatch (unterminatedFile.data, false) ⟨"f", "db.execute\x7bx", 0⟩).1 =
      unterminatedFile.data.take 30 ++
        '\n' :: (("    run_with_both_backends(\"f\", |db_path| \x7b\ndb.execute\x7bx\n        Ok(())\n    \x7d)").data ++
          '\n' :: unterminatedFile.data.drop 29) ∧
    (stepMatch (unterminatedFile.data, false) ⟨"f", "db.execute\x7bx", 0⟩).1 ≠
      unterminatedFile.data := by
  decide

/-- C10: when every located function in a file is skipped (platform-specific
name, already converted, or simple), the file-level refactor writes nothing:
the resulting filesystem is identical to the original, so the file stays
byte-identical and no backup file is created. -/
theorem no_refactor_no_write (fs : String → Option String) (path : String)
    (ms : List TestMatch) (h : ∀ m ∈ ms, skipMatch m = true) :
    refactorFileModel fs path ms = fs := by
  have hproc : ∀ content : List Char, processMatches content ms = (content, false) :=
    fun content => foldl_stepMatch_skip ms (content, false) h
  cases hfs : fs path with
  | none => simp [refactorFileModel, hfs]
  | some content => simp [refactorFileModel, hfs, hproc]

/-- A one-file filesystem for the C10 witness. -/
def fsExample : String → Option String :=
  fun p => if p = "tests/a.rs" then some "fn x" else none

/-- Witness for C10: a file whose only match is the platform-specific helper
temp_db_path is left entirely alone. -/
theorem no_refactor_no_write_witness :
    skipMatch ⟨"temp_db_path", "x", 0⟩ = true ∧
    refactorFileModel fsExample "tests/a.rs" [⟨"temp_db_path", "x", 0⟩] = fsExample :=
  ⟨by decide,
   no_refactor_no_write fsExample "tests/a.rs" [⟨"temp_db_path", "x", 0⟩] (by decide)⟩

end TegdbRefactor
